import Mathlib

/-!
Shallow embedding of the LinkBite monitoring server (src/server.js) and
verification of the specified behavior of its monitoring pipeline.

Modelling conventions:
- JavaScript objects become structures; absent or null string fields become
  Option String, and JavaScript truthiness of such a field is the predicate
  optTruthy below (null and the empty string are falsy).
- Network calls are modelled by passing their outcomes as explicit values:
  a provider attempt outcome for the shortener chain, a content lookup
  result for the poll handlers.  This matches the source, where every such
  call site is wrapped in try/catch and the catch produces a value
  (identity fallback, success:false result, or a false return), so no
  exception escapes these helpers.
- Webhook notification "events" are the payloads the code passes to
  sendWebhookNotification, that is, delivery attempts; delivery itself is
  best effort and its failure is caught inside sendWebhookNotification
  (server.js lines 336-339) and surfaces only as a false return value.
-/

namespace LinkBite

/-- JavaScript truthiness of a nullable string field: null and the empty
string are falsy, every other string is truthy. -/
def optTruthy : Option String → Bool
  | none => false
  | some s => s != ""

/-- Whitespace as trimmed by the JavaScript String.prototype.trim on the
ASCII range (the provider bodies at issue are ASCII). -/
def charIsWhitespace (c : Char) : Bool :=
  c == ' ' || c == '\t' || c == '\n' || c == '\r'

/-- JavaScript String.prototype.trim, modelled on the character list of the
string so that concrete evaluation reduces in the kernel. -/
def jsTrim (s : String) : String :=
  ⟨((s.data.dropWhile charIsWhitespace).reverse.dropWhile charIsWhitespace).reverse⟩

/-- JavaScript String.prototype.startsWith, modelled on the character list
of the string so that concrete evaluation reduces in the kernel. -/
def strStartsWith (s p : String) : Bool :=
  p.data.isPrefixOf s.data

/-- String length on the character list, for kernel-reducible evaluation. -/
def strLength (s : String) : Nat := s.data.length

/-! ## Link shortener chain (server.js lines 694-793, shortenUrl) -/

/-- Outcome of one provider HTTP attempt.  The axios call throws on network
errors and on non-2xx statuses (default validateStatus), which the code
catches and skips (lines 777-780); a 2xx response carries either a plain
string body or a JSON object body. -/
inductive ProviderOutcome where
  | failed
  | strBody (s : String)
  | objBody (fields : List (String × String))
deriving DecidableEq, Repr

/-- Field names scanned, in order, on an object-shaped provider response
(server.js line 758). -/
def responseFieldOrder : List String :=
  ["short_url", "shorturl", "shortened_url", "url", "link", "short"]

/-- Extraction of the candidate short url from a provider outcome
(server.js lines 753-765): a string body is trimmed; on an object body the
first field of responseFieldOrder holding a truthy (nonempty) value wins;
a failed attempt yields nothing. -/
def extractShortUrl : ProviderOutcome → Option String
  | .failed => none
  | .strBody s => some (jsTrim s)
  | .objBody fields =>
      (responseFieldOrder.filterMap fun f =>
        (fields.lookup f).filter (fun v => v != "")).head?

/-- The acceptance test the code applies to an extracted candidate
(server.js line 767): nonempty, begins with the four characters http, and
differs from the input url.  The nonemptiness conjunct is subsumed by the
startsWith check. -/
def acceptsCandidate (longUrl s : String) : Bool :=
  strStartsWith s "http" && s != longUrl

structure ShortenResult where
  success : Bool
  shorturl : String
  originalUrl : String
  service : String
deriving DecidableEq, Repr

/-- The shortener chain (server.js lines 734-792): providers are tried in
order; the first attempt whose extracted candidate passes acceptsCandidate
wins; if every attempt is exhausted the original url is returned unchanged
with success false and service none. -/
def shortenUrl (longUrl : String) : List (String × ProviderOutcome) → ShortenResult
  | [] => ⟨false, longUrl, longUrl, "none"⟩
  | (name, out) :: rest =>
      match extractShortUrl out with
      | some s =>
          if acceptsCandidate longUrl s then ⟨true, s, longUrl, name⟩
          else shortenUrl longUrl rest
      | none => shortenUrl longUrl rest

/-- The fixed provider order of the chain (server.js lines 697-732). -/
def shortenerChain : List String := ["linktw.in", "TinyURL", "is.gd"]

/-- The first attempt of the chain whose extracted candidate passes the
acceptance test, with its provider name; an independent first-wins
characterization of the chain used to state its correctness. -/
def firstAcceptedCandidate (longUrl : String)
    (attempts : List (String × ProviderOutcome)) : Option (String × String) :=
  attempts.findSome? fun a =>
    ((extractShortUrl a.2).filter (acceptsCandidate longUrl)).map (fun s => (a.1, s))

/-- Modelled from the words of the spec, for refinement comparison only:
a syntactically valid absolute http(s) URL must at least consist of the
scheme prefix followed by a nonempty remainder.  This is a necessary
condition of any reasonable reading of syntactic URL validity. -/
def specValidAbsoluteHttpUrl (s : String) : Bool :=
  (strStartsWith s "http://" && strLength s > 7) ||
  (strStartsWith s "https://" && strLength s > 8)

/-! ## Content source results (server.js lines 397-691) -/

/-- Result shape of checkIfChannelIsLive and checkLiveStatusFallback. -/
structure LiveStatus where
  isLive : Bool
  liveUrl : Option String
  title : Option String
  method : Option String
deriving DecidableEq, Repr

/-- Live result built by the api strategy on a hit (server.js lines
425-432): the url is always the watch url of the found video id. -/
def apiLiveResult (videoId title : String) : LiveStatus :=
  { isLive := true
    liveUrl := some ("https://www.youtube.com/watch?v=" ++ videoId)
    title := some title
    method := some "api" }

/-- Live result built by the fallback strategy on a hit (server.js lines
580-586). -/
def fallbackLiveResult (videoId title : String) : LiveStatus :=
  { isLive := true
    liveUrl := some ("https://www.youtube.com/watch?v=" ++ videoId)
    title := some title
    method := some "fallback" }

/-- Result when no live stream is found or the lookup fails closed
(server.js lines 436, 591, 595). -/
def notLiveResult : LiveStatus :=
  { isLive := false, liveUrl := none, title := none, method := none }

/-- Wellformedness invariant of every live status the content source
produces: whenever isLive is true the live url is a truthy (nonempty)
string.  All three result shapes of checkIfChannelIsLive and its fallback
satisfy it. -/
def liveStatusWF (ls : LiveStatus) : Prop :=
  ls.isLive = true → optTruthy ls.liveUrl = true

structure VideoItem where
  videoId : String
  title : String
  url : String
deriving DecidableEq, Repr

/-- Result shape of getLatestVideos / getLatestVideosFallback. -/
structure VideosResult where
  success : Bool
  videos : List VideoItem
deriving DecidableEq, Repr

/-- Result shape of getLatestShorts / getLatestShortsFallback. -/
structure ShortsResult where
  success : Bool
  shorts : List VideoItem
deriving DecidableEq, Repr

/-- Error result of getLatestVideosFallback (server.js lines 640-643):
success false with an empty list. -/
def videosFallbackErrorResult : VideosResult := { success := false, videos := [] }

/-- Error result of getLatestShortsFallback (server.js lines 687-690). -/
def shortsFallbackErrorResult : ShortsResult := { success := false, shorts := [] }

/-! ## Monitoring instance state (server.js lines 81-99) -/

structure LastKnownStates where
  live : Bool
  latestVideoId : Option String
  latestShortId : Option String
deriving DecidableEq, Repr

structure MonitoringInstance where
  channelHandle : String
  webhookUrl : Option String
  interval : Nat
  contentTypes : List String
  isMonitoring : Bool
  hasTimer : Bool
  lastKnownStates : LastKnownStates
  consecutiveErrors : Nat
  maxConsecutiveErrors : Nat
deriving DecidableEq, Repr

/-- The constructor of MonitoringInstance (server.js lines 82-99). -/
def mkMonitoringInstance (channelHandle : String) (webhookUrl : Option String)
    (interval : Nat) (contentTypes : List String) : MonitoringInstance :=
  { channelHandle := channelHandle
    webhookUrl := webhookUrl
    interval := interval
    contentTypes := contentTypes
    isMonitoring := false
    hasTimer := false
    lastKnownStates := { live := false, latestVideoId := none, latestShortId := none }
    consecutiveErrors := 0
    maxConsecutiveErrors := 5 }

/-- Webhook notification payloads, as tagged by the event field of the data
passed to sendWebhookNotification. -/
inductive WebhookPayload where
  | streamStarted (shorturl : String) (originalUrl : String)
  | streamEnded
  | newVideo (shorturl : String) (originalUrl : String)
  | newShort (shorturl : String) (originalUrl : String)
  | monitoringStarted (contentTypes : List String) (interval : Nat)
  | monitoringError (consecutiveErrors : Nat)
  | monitoringStopped
  | testEvent
deriving DecidableEq, Repr

def isStreamStarted : WebhookPayload → Bool
  | .streamStarted _ _ => true
  | _ => false

def isStreamEnded : WebhookPayload → Bool
  | .streamEnded => true
  | _ => false

def isNewVideo : WebhookPayload → Bool
  | .newVideo _ _ => true
  | _ => false

def isNewShort : WebhookPayload → Bool
  | .newShort _ _ => true
  | _ => false

def isMonitoringError : WebhookPayload → Bool
  | .monitoringError _ => true
  | _ => false

/-- Observable effects of one content handler invocation: the updated
lastKnownStates, the webhook notification attempts made, the urls passed to
shortenUrl, the keys written into globalCache, and whether
saveMonitoringData was invoked. -/
structure HandlerEffects where
  states : LastKnownStates
  events : List WebhookPayload
  shortenerCalls : List String
  cacheWrites : List String
  savedData : Bool
deriving DecidableEq, Repr

/-- Effects of a handler invocation whose guard did not fire: nothing
happens and the states are left as they were. -/
def noEffects (st : LastKnownStates) : HandlerEffects :=
  { states := st, events := [], shortenerCalls := [], cacheWrites := [], savedData := false }

/-- MonitoringInstance.handleLiveStatusChange (server.js lines 197-252).
The outer guard compares the new isLive against lastKnownStates.live; the
started branch additionally requires a truthy liveUrl; the states are
overwritten and saved inside the outer guard in all of its branches; the
two notification branches also write globalCache under the bare channel
handle key. -/
def handleLiveStatusChange (self : MonitoringInstance) (liveStatus : LiveStatus)
    (providerAttempts : List (String × ProviderOutcome)) : HandlerEffects :=
  if liveStatus.isLive != self.lastKnownStates.live then
    if liveStatus.isLive && optTruthy liveStatus.liveUrl then
      let url := liveStatus.liveUrl.getD ""
      let sr := shortenUrl url providerAttempts
      { states := { self.lastKnownStates with live := liveStatus.isLive }
        events := [.streamStarted sr.shorturl url]
        shortenerCalls := [url]
        cacheWrites := [self.channelHandle]
        savedData := true }
    else if !liveStatus.isLive && self.lastKnownStates.live then
      { states := { self.lastKnownStates with live := liveStatus.isLive }
        events := [.streamEnded]
        shortenerCalls := []
        cacheWrites := [self.channelHandle]
        savedData := true }
    else
      { states := { self.lastKnownStates with live := liveStatus.isLive }
        events := []
        shortenerCalls := []
        cacheWrites := []
        savedData := true }
  else noEffects self.lastKnownStates

/-- MonitoringInstance.handleNewVideo (server.js lines 254-278): only runs
when the lookup succeeded with a nonempty list; inspects the single newest
item; fires and updates the stored id only when that id differs from the
stored one (a null stored id always differs). -/
def handleNewVideo (self : MonitoringInstance) (videoResult : VideosResult)
    (providerAttempts : List (String × ProviderOutcome)) : HandlerEffects :=
  if videoResult.success then
    match videoResult.videos with
    | [] => noEffects self.lastKnownStates
    | latestVideo :: _ =>
        if self.lastKnownStates.latestVideoId != some latestVideo.videoId then
          let sr := shortenUrl latestVideo.url providerAttempts
          { states := { self.lastKnownStates with latestVideoId := some latestVideo.videoId }
            events := [.newVideo sr.shorturl latestVideo.url]
            shortenerCalls := [latestVideo.url]
            cacheWrites := []
            savedData := true }
        else noEffects self.lastKnownStates
  else noEffects self.lastKnownStates

/-- MonitoringInstance.handleNewShort (server.js lines 280-304): identical
policy to handleNewVideo over shorts and latestShortId. -/
def handleNewShort (self : MonitoringInstance) (shortResult : ShortsResult)
    (providerAttempts : List (String × ProviderOutcome)) : HandlerEffects :=
  if shortResult.success then
    match shortResult.shorts with
    | [] => noEffects self.lastKnownStates
    | latestShort :: _ =>
        if self.lastKnownStates.latestShortId != some latestShort.videoId then
          let sr := shortenUrl latestShort.url providerAttempts
          { states := { self.lastKnownStates with latestShortId := some latestShort.videoId }
            events := [.newShort sr.shorturl latestShort.url]
            shortenerCalls := [latestShort.url]
            cacheWrites := []
            savedData := true }
        else noEffects self.lastKnownStates
  else noEffects self.lastKnownStates

/-! ## Poll cycle (server.js lines 142-195, checkContent / checkContentType) -/

/-- Environment of one content type check within a cycle: the content
lookup result the content source returns for that type, the provider
attempt outcomes the shortener chain would encounter, and whether webhook
delivery would succeed.  Delivery failure is caught inside
sendWebhookNotification (server.js lines 336-339) and returned as false,
a value the handlers ignore, so it cannot influence the cycle. -/
structure TypeEnv where
  liveStatus : LiveStatus
  videoResult : VideosResult
  shortResult : ShortsResult
  providerAttempts : List (String × ProviderOutcome)
  webhookDelivers : Bool
deriving Repr

/-- MonitoringInstance.checkContentType (server.js lines 178-195): the
switch dispatches on the content type string and has no default case, so an
unknown type performs nothing. -/
def checkContentType (self : MonitoringInstance) (contentType : String)
    (e : TypeEnv) : HandlerEffects :=
  if contentType == "live" then
    handleLiveStatusChange self e.liveStatus e.providerAttempts
  else if contentType == "videos" then
    handleNewVideo self e.videoResult e.providerAttempts
  else if contentType == "shorts" then
    handleNewShort self e.shortResult e.providerAttempts
  else noEffects self.lastKnownStates

/-- Accumulated effects of the for loop over the subscribed content types
within one poll cycle.  The processed field records, in order, every
content type the loop reached. -/
structure CycleEffects where
  states : LastKnownStates
  events : List WebhookPayload
  processed : List String
  savedData : Bool
deriving DecidableEq, Repr

/-- The for loop body of checkContent (server.js lines 146-148), iterating
the given content type list and threading lastKnownStates through the
handlers.  Shortening failure is the identity fallback value of shortenUrl,
formatting runs inside the try of sendWebhookNotification, and delivery
failure is caught there and returned as false, so none of them raises, and
the loop reaches every content type of the list. -/
def runCycleOver (self : MonitoringInstance) (env : String → TypeEnv) :
    List String → CycleEffects
  | [] => { states := self.lastKnownStates, events := [], processed := [], savedData := false }
  | ct :: rest =>
      let eff := checkContentType self ct (env ct)
      let tail := runCycleOver { self with lastKnownStates := eff.states } env rest
      { states := tail.states
        events := eff.events ++ tail.events
        processed := ct :: tail.processed
        savedData := eff.savedData || tail.savedData }

/-- One whole iteration of the for loop of checkContent over the subscribed
content types of the instance. -/
def runCycle (self : MonitoringInstance) (env : String → TypeEnv) : CycleEffects :=
  runCycleOver self env self.contentTypes

/-- MonitoringInstance.stop (server.js lines 123-140): refuses when not
monitoring; otherwise clears the armed timer, leaves the monitoring state,
and resets the consecutive error counter to zero.  The second component
reports whether the stop succeeded. -/
def stopInstance (self : MonitoringInstance) : MonitoringInstance × Bool :=
  if self.isMonitoring then
    ({ self with hasTimer := false, isMonitoring := false, consecutiveErrors := 0 }, true)
  else (self, false)

/-- Whether the try block of checkContent completed, or an exception
escaped the per type processing and reached the catch (server.js lines
154-175). -/
inductive CycleOutcome where
  | ok
  | cycleError
deriving DecidableEq, Repr

/-- Effects of one checkContent invocation: the instance afterwards, the
webhook attempts made by the catch path, the registry keys deleted from
monitoringInstances, the keys deleted from persistentChannels, and whether
saveMonitoringData was invoked by the catch path. -/
structure CheckContentEffects where
  self : MonitoringInstance
  events : List WebhookPayload
  registryRemovals : List String
  persistentRemovals : List String
  savedData : Bool
deriving DecidableEq, Repr

/-- MonitoringInstance.checkContent (server.js lines 142-176).  On a
completed cycle the consecutive error counter resets to zero.  On a cycle
error the counter increments; when it reaches the configured maximum the
instance stops itself first (which resets the counter to zero), then sends
one monitoring error webhook whose consecutiveErrors field reads the
counter after that reset, then removes itself from monitoringInstances and
persistentChannels and saves.  The events field of the error branch lists
the attempts made by the catch block itself; the handlers never emit a
monitoring error payload, so any attempts made before an exception
interrupted the cycle are not of that class. -/
def checkContent (self : MonitoringInstance) (env : String → TypeEnv)
    (outcome : CycleOutcome) : CheckContentEffects :=
  match outcome with
  | .ok =>
      let cyc := runCycle self env
      { self := { self with lastKnownStates := cyc.states, consecutiveErrors := 0 }
        events := cyc.events
        registryRemovals := []
        persistentRemovals := []
        savedData := cyc.savedData }
  | .cycleError =>
      let s1 := { self with consecutiveErrors := self.consecutiveErrors + 1 }
      if s1.consecutiveErrors ≥ s1.maxConsecutiveErrors then
        let s2 := (stopInstance s1).1
        { self := s2
          events := [.monitoringError s2.consecutiveErrors]
          registryRemovals := [s2.channelHandle]
          persistentRemovals := [s2.channelHandle]
          savedData := true }
      else
        { self := s1
          events := []
          registryRemovals := []
          persistentRemovals := []
          savedData := false }

/-- MonitoringInstance.start (server.js lines 101-121), apart from the
immediate first poll, which is a checkContent invocation modelled
separately: refuses when already monitoring, otherwise raises the
monitoring flag, resets the error counter and arms the timer. -/
def startInstance (self : MonitoringInstance) : MonitoringInstance × Bool :=
  if self.isMonitoring then (self, false)
  else ({ self with isMonitoring := true, consecutiveErrors := 0, hasTimer := true }, true)

/-! ## Setup endpoint (server.js lines 1212-1376, POST /api/monitoring/setup) -/

/-- Insertion of one string into a sorted list, by the default character
order; used to model the JavaScript Array.prototype.sort on the content
type strings, which for these ASCII names is plain lexicographic order. -/
def insertSorted (s : String) : List String → List String
  | [] => [s]
  | t :: ts => if s ≤ t then s :: t :: ts else t :: insertSorted s ts

/-- Sorting of a content type list, modelling the sort calls of the
comparison at server.js lines 1267-1268. -/
def sortStrings : List String → List String
  | [] => []
  | s :: ss => insertSorted s (sortStrings ss)

/-- The config difference test of the setup endpoint (server.js lines
1267-1268): the webhook url and the sorted content type lists are compared;
the poll interval is not part of the comparison. -/
def setupConfigDiffers (inst : MonitoringInstance) (webhook : String)
    (selectedTypes : List String) : Bool :=
  inst.webhookUrl != some webhook ||
    sortStrings inst.contentTypes != sortStrings selectedTypes

inductive SetupAction where
  | updatedRestart
  | alreadyMonitoring
  | created
deriving DecidableEq, Repr

/-- Observable effects of one setup request on an existing registry entry:
which response branch answered, whether the old instance was stopped, the
instance registered afterwards, and the webhook notifications the endpoint
itself sent (the monitoring started confirmation; notifications of the
immediate first poll of a fresh start are modelled by checkContent). -/
structure SetupEffects where
  action : SetupAction
  stoppedOld : Bool
  registered : MonitoringInstance
  events : List WebhookPayload
deriving DecidableEq, Repr

/-- POST /api/monitoring/setup from the point where the handle, webhook,
interval and validated content types are in hand (server.js lines
1262-1369).  When a running instance exists and the config difference test
is negative the endpoint answers already monitoring and touches nothing;
when it is positive the old instance is stopped and a freshly constructed
instance with the new config is started, registered and announced; with no
running instance a fresh instance is created the same way. -/
def monitoringSetup (existing : Option MonitoringInstance) (channelHandle : String)
    (webhook : String) (monitoringInterval : Nat) (selectedTypes : List String) :
    SetupEffects :=
  let createFresh : Bool → SetupAction → SetupEffects := fun stopped act =>
    { action := act
      stoppedOld := stopped
      registered := (startInstance
        (mkMonitoringInstance channelHandle (some webhook) monitoringInterval selectedTypes)).1
      events := [.monitoringStarted selectedTypes monitoringInterval] }
  match existing with
  | some inst =>
      if inst.isMonitoring then
        if setupConfigDiffers inst webhook selectedTypes then
          createFresh true .updatedRestart
        else
          { action := .alreadyMonitoring
            stoppedOld := false
            registered := inst
            events := [] }
      else createFresh false .created
  | none => createFresh false .created

/-! ## Response cache (server.js lines 27, 207-216, 1036-1052) -/

/-- One globalCache entry, reduced to the fields the claims consult. -/
structure CacheEntry where
  isLive : Bool
  shorturl : Option String
deriving DecidableEq, Repr

/-- Map.set on the association list model of globalCache. -/
def cacheSet (cache : List (String × CacheEntry)) (key : String) (v : CacheEntry) :
    List (String × CacheEntry) :=
  (key, v) :: cache.filter (fun p => p.1 != key)

/-- The cache key GET /api/live-link consults (server.js line 1037): the
channel handle and the content type joined by an underscore. -/
def liveLinkCacheKey (channelHandle contentType : String) : String :=
  channelHandle ++ "_" ++ contentType

/-- The globalCache write of the stream started branch of
handleLiveStatusChange (server.js lines 208-216): the entry is stored under
the bare channel handle. -/
def liveStartedCacheUpdate (cache : List (String × CacheEntry))
    (self : MonitoringInstance) (shorturl : String) : List (String × CacheEntry) :=
  cacheSet cache self.channelHandle { isLive := true, shorturl := some shorturl }

/-! ## Startup restore (server.js lines 56-75 and 1902-1956) -/

/-- One row of the persisted monitoring data file. -/
structure SavedChannelConfig where
  channelHandle : String
  webhookUrl : String
  interval : Nat
  contentTypes : List String
  lastKnownStates : LastKnownStates
deriving DecidableEq, Repr

/-- loadMonitoringData (server.js lines 56-75), faithfully: the file is
read and parsed and each saved entry is iterated, but the loop body holds
only console logging and the placeholder comment at line 70; no
MonitoringInstance is constructed, started, or put into the registry, so
the registry is returned unchanged. -/
def loadMonitoringData (savedData : List (String × SavedChannelConfig))
    (registry : List (String × MonitoringInstance)) :
    List (String × MonitoringInstance) :=
  savedData.foldl (fun reg _ => reg) registry

/-- initializeServer (server.js lines 1902-1956): the process starts with
an empty monitoringInstances map, calls loadMonitoringData, and then only
listens and logs; this function gives the registry contents after startup
for given persisted data. -/
def initializeServerRegistry (savedData : List (String × SavedChannelConfig)) :
    List (String × MonitoringInstance) :=
  loadMonitoringData savedData []

/-! ## Wellformedness of the content source live results -/

/-- Every live hit of the api strategy carries a truthy live url, since the
url is the watch url prefix followed by the video id. -/
theorem apiLiveResult_wf (v t : String) : liveStatusWF (apiLiveResult v t) := by
  intro _
  simp only [apiLiveResult, optTruthy, bne_iff_ne, ne_eq, decide_eq_true_eq]
  intro h
  have hlen := congrArg String.length h
  rw [String.length_append] at hlen
  have h32 : ("https://www.youtube.com/watch?v=" : String).length = 32 := rfl
  have h0 : ("" : String).length = 0 := rfl
  omega

/-- Every live hit of the fallback strategy carries a truthy live url. -/
theorem fallbackLiveResult_wf (v t : String) : liveStatusWF (fallbackLiveResult v t) := by
  intro _
  simp only [fallbackLiveResult, optTruthy, bne_iff_ne, ne_eq, decide_eq_true_eq]
  intro h
  have hlen := congrArg String.length h
  rw [String.length_append] at hlen
  have h32 : ("https://www.youtube.com/watch?v=" : String).length = 32 := rfl
  have h0 : ("" : String).length = 0 := rfl
  omega

/-- The not live result trivially satisfies the invariant. -/
theorem notLiveResult_wf : liveStatusWF notLiveResult := by
  intro h
  simp [notLiveResult] at h

/-! ## Claims -/

/-- C1: For every monitoring poll of the live content type, given a live
status produced by the content source (hence carrying a truthy url whenever
isLive is true), a stream started notification is attempted iff the new
value is true and the last known value was false; a stream ended
notification is attempted iff the new value is false and the last known
value was true; no notification is attempted when the two values are equal;
and after the evaluation lastKnownStates.live equals the new value. -/
theorem handleLiveStatusChange_fires_iff_transition
    (self : MonitoringInstance) (ls : LiveStatus)
    (attempts : List (String × ProviderOutcome))
    (hwf : liveStatusWF ls) :
    ((handleLiveStatusChange self ls attempts).events.any isStreamStarted = true ↔
      (ls.isLive = true ∧ self.lastKnownStates.live = false)) ∧
    ((handleLiveStatusChange self ls attempts).events.any isStreamEnded = true ↔
      (ls.isLive = false ∧ self.lastKnownStates.live = true)) ∧
    (ls.isLive = self.lastKnownStates.live →
      (handleLiveStatusChange self ls attempts).events = []) ∧
    (handleLiveStatusChange self ls attempts).states.live = ls.isLive := by
  unfold liveStatusWF at hwf
  cases hl : ls.isLive <;> cases hk : self.lastKnownStates.live <;>
    simp [handleLiveStatusChange, noEffects, hl, hk, isStreamStarted, isStreamEnded,
      hwf, List.any]

/-- Concrete instantiation of the C1 theorem: a fresh instance observing an
api live hit attempts exactly the stream started notification. -/
theorem handleLiveStatusChange_fires_iff_transition_witness :
    (handleLiveStatusChange
      (mkMonitoringInstance "@example" (some "https://w.example/hook") 60000 ["live"])
      (apiLiveResult "abc" "Title") []).events.any isStreamStarted = true :=
  ((handleLiveStatusChange_fires_iff_transition
      (mkMonitoringInstance "@example" (some "https://w.example/hook") 60000 ["live"])
      (apiLiveResult "abc" "Title") [] (apiLiveResult_wf "abc" "Title")).1).mpr
    (by constructor <;> rfl)

/-- C2: For every videos (respectively shorts) poll whose lookup succeeds
with a nonempty list, only the newest item is inspected; a new video
(respectively new short) notification is attempted iff that id differs from
the stored id, the initial null stored id included; when it differs exactly
one notification is attempted; afterwards the stored id equals the newest
id; and a subsequent poll whose newest item carries the same id attempts
nothing. -/
theorem handleNewContent_fires_iff_new_id
    (self : MonitoringInstance) (attempts : List (String × ProviderOutcome))
    (vr vr2 : VideosResult) (latest latest2 : VideoItem) (rest rest2 : List VideoItem)
    (hv : vr.success = true) (hl : vr.videos = latest :: rest)
    (hv2 : vr2.success = true) (hl2 : vr2.videos = latest2 :: rest2)
    (hid : latest2.videoId = latest.videoId)
    (sr sr2 : ShortsResult) (lshort lshort2 : VideoItem) (srest srest2 : List VideoItem)
    (hs : sr.success = true) (hsl : sr.shorts = lshort :: srest)
    (hs2 : sr2.success = true) (hsl2 : sr2.shorts = lshort2 :: srest2)
    (hsid : lshort2.videoId = lshort.videoId) :
    ((handleNewVideo self vr attempts).events.any isNewVideo = true ↔
      self.lastKnownStates.latestVideoId ≠ some latest.videoId) ∧
    (self.lastKnownStates.latestVideoId ≠ some latest.videoId →
      (handleNewVideo self vr attempts).events =
        [.newVideo (shortenUrl latest.url attempts).shorturl latest.url]) ∧
    (handleNewVideo self vr attempts).states.latestVideoId = some latest.videoId ∧
    (handleNewVideo { self with lastKnownStates := (handleNewVideo self vr attempts).states }
        vr2 attempts).events = [] ∧
    ((handleNewShort self sr attempts).events.any isNewShort = true ↔
      self.lastKnownStates.latestShortId ≠ some lshort.videoId) ∧
    (self.lastKnownStates.latestShortId ≠ some lshort.videoId →
      (handleNewShort self sr attempts).events =
        [.newShort (shortenUrl lshort.url attempts).shorturl lshort.url]) ∧
    (handleNewShort self sr attempts).states.latestShortId = some lshort.videoId ∧
    (handleNewShort { self with lastKnownStates := (handleNewShort self sr attempts).states }
        sr2 attempts).events = [] := by
  by_cases h : self.lastKnownStates.latestVideoId = some latest.videoId <;>
    by_cases h2 : self.lastKnownStates.latestShortId = some lshort.videoId <;>
      simp [handleNewVideo, handleNewShort, noEffects, hv, hl, hv2, hl2, hid,
        hs, hsl, hs2, hsl2, hsid, h, h2, isNewVideo, isNewShort]

/-- Concrete instantiation of the C2 theorem: a fresh instance with null
stored ids observing one video and one short. -/
theorem handleNewContent_fires_iff_new_id_witness :
    ((handleNewVideo (mkMonitoringInstance "@example" (some "https://w.example/hook") 60000
        ["videos", "shorts"])
      { success := true, videos := [{ videoId := "v1", title := "T", url := "https://u/v1" }] }
      []).events.any isNewVideo = true) ∧
    ((handleNewShort (mkMonitoringInstance "@example" (some "https://w.example/hook") 60000
        ["videos", "shorts"])
      { success := true, shorts := [{ videoId := "s1", title := "S", url := "https://u/s1" }] }
      []).events.any isNewShort = true) := by
  have h := handleNewContent_fires_iff_new_id
    (mkMonitoringInstance "@example" (some "https://w.example/hook") 60000 ["videos", "shorts"])
    []
    { success := true, videos := [{ videoId := "v1", title := "T", url := "https://u/v1" }] }
    { success := true, videos := [{ videoId := "v1", title := "T", url := "https://u/v1" }] }
    { videoId := "v1", title := "T", url := "https://u/v1" }
    { videoId := "v1", title := "T", url := "https://u/v1" } [] []
    rfl rfl rfl rfl rfl
    { success := true, shorts := [{ videoId := "s1", title := "S", url := "https://u/s1" }] }
    { success := true, shorts := [{ videoId := "s1", title := "S", url := "https://u/s1" }] }
    { videoId := "s1", title := "S", url := "https://u/s1" }
    { videoId := "s1", title := "S", url := "https://u/s1" } [] []
    rfl rfl rfl rfl rfl
  exact ⟨h.1.mpr (by decide), h.2.2.2.2.1.mpr (by decide)⟩

/-- C9: A videos or shorts poll whose lookup returns success false or an
empty item list performs no action at all: no webhook notification is
attempted, the shortener is not invoked, the stored ids are unchanged, and
no persistence write happens. -/
theorem handleNewContent_noop_on_failed_lookup
    (self : MonitoringInstance) (attempts : List (String × ProviderOutcome))
    (vr : VideosResult) (sr : ShortsResult)
    (hv : vr.success = false ∨ vr.videos = [])
    (hs : sr.success = false ∨ sr.shorts = []) :
    handleNewVideo self vr attempts = noEffects self.lastKnownStates ∧
    handleNewShort self sr attempts = noEffects self.lastKnownStates ∧
    (handleNewVideo self vr attempts).events = [] ∧
    (handleNewVideo self vr attempts).shortenerCalls = [] ∧
    (handleNewVideo self vr attempts).states = self.lastKnownStates ∧
    (handleNewVideo self vr attempts).savedData = false ∧
    (handleNewShort self sr attempts).events = [] ∧
    (handleNewShort self sr attempts).shortenerCalls = [] ∧
    (handleNewShort self sr attempts).states = self.lastKnownStates ∧
    (handleNewShort self sr attempts).savedData = false := by
  have h1 : handleNewVideo self vr attempts = noEffects self.lastKnownStates := by
    rcases hv with h | h
    · simp [handleNewVideo, h]
    · cases hvs : vr.success
      · simp [handleNewVideo, hvs]
      · simp [handleNewVideo, hvs, h]
  have h2 : handleNewShort self sr attempts = noEffects self.lastKnownStates := by
    rcases hs with h | h
    · simp [handleNewShort, h]
    · cases hss : sr.success
      · simp [handleNewShort, hss]
      · simp [handleNewShort, hss, h]
  exact ⟨h1, h2, by simp [h1, noEffects], by simp [h1, noEffects], by simp [h1, noEffects],
    by simp [h1, noEffects], by simp [h2, noEffects], by simp [h2, noEffects],
    by simp [h2, noEffects], by simp [h2, noEffects]⟩

/-- Concrete instantiation of the C9 theorem at the fallback error results
of the content source. -/
theorem handleNewContent_noop_on_failed_lookup_witness :
    handleNewVideo
      (mkMonitoringInstance "@example" (some "https://w.example/hook") 60000 ["videos"])
      videosFallbackErrorResult [] =
      noEffects (mkMonitoringInstance "@example" (some "https://w.example/hook") 60000
        ["videos"]).lastKnownStates ∧
    handleNewShort
      (mkMonitoringInstance "@example" (some "https://w.example/hook") 60000 ["videos"])
      shortsFallbackErrorResult [] =
      noEffects (mkMonitoringInstance "@example" (some "https://w.example/hook") 60000
        ["videos"]).lastKnownStates := by
  have h := handleNewContent_noop_on_failed_lookup
    (mkMonitoringInstance "@example" (some "https://w.example/hook") 60000 ["videos"])
    [] videosFallbackErrorResult shortsFallbackErrorResult
    (Or.inl rfl) (Or.inl rfl)
  exact ⟨h.1, h.2.1⟩

/-- Helper: the for loop of a poll cycle reaches every content type of the
list it iterates, whatever the per type environment holds. -/
theorem runCycleOver_processed (env : String → TypeEnv) :
    ∀ (l : List String) (self : MonitoringInstance),
      (runCycleOver self env l).processed = l := by
  intro l
  induction l with
  | nil => intro self; rfl
  | cons ct rest ih => intro self; simp [runCycleOver, ih]

/-- C5: Within a single poll cycle, every subscribed content type is
checked, whatever the environment of the earlier content types holds: the
per type failure modes are values, not exceptions (a shortener exhaustion
is the identity fallback value of shortenUrl, a formatting or delivery
failure is caught inside sendWebhookNotification and returned as false), so
the for loop over the subscribed types reaches every one of them.  The
quantification over env covers in particular environments where the
shortener chain is exhausted and webhook delivery fails for every earlier
content type. -/
theorem runCycle_processes_all_content_types
    (self : MonitoringInstance) (env : String → TypeEnv) :
    (runCycle self env).processed = self.contentTypes :=
  runCycleOver_processed env self.contentTypes self

/-- C4: When the consecutive error count of a running instance reaches the
configured maximum of five, the instance auto-stops: the timer is
cancelled, exactly one monitoring error webhook attempt is made, and the
instance is removed from the registry with its persisted config deleted;
moreover after any checkContent step a running instance never holds five or
more consecutive errors, and the removals name only this one channel. -/
theorem checkContent_autoStop_on_max_errors
    (self : MonitoringInstance) (env : String → TypeEnv)
    (hmon : self.isMonitoring = true)
    (hmax : self.maxConsecutiveErrors = 5) :
    (self.consecutiveErrors + 1 ≥ 5 →
      ((checkContent self env .cycleError).self.isMonitoring = false ∧
       (checkContent self env .cycleError).self.hasTimer = false ∧
       (checkContent self env .cycleError).events.countP isMonitoringError = 1 ∧
       (checkContent self env .cycleError).registryRemovals = [self.channelHandle] ∧
       (checkContent self env .cycleError).persistentRemovals = [self.channelHandle])) ∧
    (∀ outcome : CycleOutcome, self.consecutiveErrors < 5 →
      ¬((checkContent self env outcome).self.isMonitoring = true ∧
        5 ≤ (checkContent self env outcome).self.consecutiveErrors)) := by
  constructor
  · intro hge
    simp [checkContent, stopInstance, hmon, hmax, ge_iff_le, hge, List.countP,
      List.countP.go, isMonitoringError]
  · intro outcome hlt
    cases outcome
    · simp [checkContent]
    · by_cases hc : 5 ≤ self.consecutiveErrors + 1
      · simp [checkContent, stopInstance, hmax, hc, hmon]
      · simp [checkContent, hmax, hc]

/-- Concrete instantiation of the C4 theorem: a running instance at four
consecutive errors hit by a fifth cycle error. -/
theorem checkContent_autoStop_on_max_errors_witness :
    (checkContent
      { mkMonitoringInstance "@example" (some "https://w.example/hook") 60000 ["live"] with
          isMonitoring := true, hasTimer := true, consecutiveErrors := 4 }
      (fun _ => { liveStatus := notLiveResult, videoResult := videosFallbackErrorResult,
                  shortResult := shortsFallbackErrorResult, providerAttempts := [],
                  webhookDelivers := false })
      .cycleError).self.isMonitoring = false ∧
    (checkContent
      { mkMonitoringInstance "@example" (some "https://w.example/hook") 60000 ["live"] with
          isMonitoring := true, hasTimer := true, consecutiveErrors := 4 }
      (fun _ => { liveStatus := notLiveResult, videoResult := videosFallbackErrorResult,
                  shortResult := shortsFallbackErrorResult, providerAttempts := [],
                  webhookDelivers := false })
      .cycleError).self.hasTimer = false ∧
    (checkContent
      { mkMonitoringInstance "@example" (some "https://w.example/hook") 60000 ["live"] with
          isMonitoring := true, hasTimer := true, consecutiveErrors := 4 }
      (fun _ => { liveStatus := notLiveResult, videoResult := videosFallbackErrorResult,
                  shortResult := shortsFallbackErrorResult, providerAttempts := [],
                  webhookDelivers := false })
      .cycleError).events.countP isMonitoringError = 1 ∧
    (checkContent
      { mkMonitoringInstance "@example" (some "https://w.example/hook") 60000 ["live"] with
          isMonitoring := true, hasTimer := true, consecutiveErrors := 4 }
      (fun _ => { liveStatus := notLiveResult, videoResult := videosFallbackErrorResult,
                  shortResult := shortsFallbackErrorResult, providerAttempts := [],
                  webhookDelivers := false })
      .cycleError).registryRemovals = ["@example"] ∧
    (checkContent
      { mkMonitoringInstance "@example" (some "https://w.example/hook") 60000 ["live"] with
          isMonitoring := true, hasTimer := true, consecutiveErrors := 4 }
      (fun _ => { liveStatus := notLiveResult, videoResult := videosFallbackErrorResult,
                  shortResult := shortsFallbackErrorResult, providerAttempts := [],
                  webhookDelivers := false })
      .cycleError).persistentRemovals = ["@example"] :=
  (checkContent_autoStop_on_max_errors _ _ rfl rfl).1 (by decide)

/-- C10: On an auto-stop triggered by reaching the consecutive error
maximum, the monitoring error payload carries a consecutiveErrors field of
zero rather than the threshold, because stop resets the counter before the
payload is built. -/
theorem checkContent_error_payload_counter_reset
    (self : MonitoringInstance) (env : String → TypeEnv)
    (hmon : self.isMonitoring = true)
    (hmax : self.maxConsecutiveErrors = 5)
    (hge : self.consecutiveErrors + 1 ≥ 5) :
    (checkContent self env .cycleError).events = [.monitoringError 0] ∧
    (0 : Nat) ≠ self.maxConsecutiveErrors := by
  constructor
  · simp [checkContent, stopInstance, hmon, hmax, ge_iff_le, hge]
  · rw [hmax]; omega

/-- Concrete instantiation of the C10 theorem at the same auto-stop input
as the C4 witness. -/
theorem checkContent_error_payload_counter_reset_witness :
    (checkContent
      { mkMonitoringInstance "@example" (some "https://w.example/hook") 60000 ["live"] with
          isMonitoring := true, hasTimer := true, consecutiveErrors := 4 }
      (fun _ => { liveStatus := notLiveResult, videoResult := videosFallbackErrorResult,
                  shortResult := shortsFallbackErrorResult, providerAttempts := [],
                  webhookDelivers := false })
      .cycleError).events = [.monitoringError 0] :=
  (checkContent_error_payload_counter_reset _ _ rfl rfl (by decide)).1

/-- C3 counterexample: a setup request for a running channel that differs
from the existing configuration only in the poll interval is answered
already monitoring, without stopping or restarting the instance, because
the config difference test of the endpoint compares only the webhook url
and the content types.  The claim states that a configuration differing in
the poll interval leads to a stop and restart; here the requested interval
differs from the registered one and nothing is stopped. -/
theorem monitoringSetup_interval_change_not_restarted_cex :
    (startInstance (mkMonitoringInstance "@example" (some "https://w.example/hook") 60000
      ["live"])).1.interval ≠ 120000 ∧
    (monitoringSetup
      (some (startInstance (mkMonitoringInstance "@example" (some "https://w.example/hook")
        60000 ["live"])).1)
      "@example" "https://w.example/hook" 120000 ["live"]).action =
        SetupAction.alreadyMonitoring ∧
    (monitoringSetup
      (some (startInstance (mkMonitoringInstance "@example" (some "https://w.example/hook")
        60000 ["live"])).1)
      "@example" "https://w.example/hook" 120000 ["live"]).stoppedOld = false ∧
    (monitoringSetup
      (some (startInstance (mkMonitoringInstance "@example" (some "https://w.example/hook")
        60000 ["live"])).1)
      "@example" "https://w.example/hook" 120000 ["live"]).registered.interval = 60000 := by
  decide

/-- C3 amended: for a running instance, a setup request with identical
webhook url and content types (the poll interval is not part of the
comparison) is answered already monitoring without stopping or restarting
the instance, with no monitoring started webhook and the instance,
lastKnownStates included, untouched; a request whose webhook url or content
types differ stops the old instance and starts a freshly constructed
instance with the new configuration. -/
theorem monitoringSetup_idempotent_webhook_types
    (inst : MonitoringInstance) (handle webhook : String) (interval : Nat)
    (types : List String) (hrun : inst.isMonitoring = true) :
    ((inst.webhookUrl = some webhook ∧ sortStrings inst.contentTypes = sortStrings types) →
      (monitoringSetup (some inst) handle webhook interval types).action =
        SetupAction.alreadyMonitoring ∧
      (monitoringSetup (some inst) handle webhook interval types).stoppedOld = false ∧
      (monitoringSetup (some inst) handle webhook interval types).registered = inst ∧
      (monitoringSetup (some inst) handle webhook interval types).events = []) ∧
    ((inst.webhookUrl ≠ some webhook ∨ sortStrings inst.contentTypes ≠ sortStrings types) →
      (monitoringSetup (some inst) handle webhook interval types).action =
        SetupAction.updatedRestart ∧
      (monitoringSetup (some inst) handle webhook interval types).stoppedOld = true ∧
      (monitoringSetup (some inst) handle webhook interval types).registered.webhookUrl =
        some webhook ∧
      (monitoringSetup (some inst) handle webhook interval types).registered.contentTypes =
        types ∧
      (monitoringSetup (some inst) handle webhook interval types).registered.interval =
        interval ∧
      (monitoringSetup (some inst) handle webhook interval types).registered.isMonitoring =
        true ∧
      (monitoringSetup (some inst) handle webhook interval types).registered.lastKnownStates =
        { live := false, latestVideoId := none, latestShortId := none } ∧
      (monitoringSetup (some inst) handle webhook interval types).events =
        [.monitoringStarted types interval]) := by
  constructor
  · rintro ⟨hw, ht⟩
    simp [monitoringSetup, hrun, setupConfigDiffers, hw, ht]
  · intro hd
    have hcond : setupConfigDiffers inst webhook types = true := by
      simp only [setupConfigDiffers, Bool.or_eq_true, bne_iff_ne, ne_eq]
      rcases hd with h | h
      · exact Or.inl h
      · exact Or.inr h
    simp [monitoringSetup, hrun, hcond, startInstance, mkMonitoringInstance]

/-- Concrete instantiation of the C3 amended theorem: repeating the setup
of a running channel with the same webhook and content types but a
different interval is answered already monitoring. -/
theorem monitoringSetup_idempotent_webhook_types_witness :
    (monitoringSetup
      (some (startInstance (mkMonitoringInstance "@example" (some "https://w.example/hook")
        60000 ["live"])).1)
      "@example" "https://w.example/hook" 120000 ["live"]).action =
      SetupAction.alreadyMonitoring :=
  ((monitoringSetup_idempotent_webhook_types
      (startInstance (mkMonitoringInstance "@example" (some "https://w.example/hook")
        60000 ["live"])).1
      "@example" "https://w.example/hook" 120000 ["live"] rfl).1 ⟨rfl, rfl⟩).1

/-- C6 counterexample: the validation the chain applies is only the
character prefix http plus difference from the input, not syntactic URL
validity, so a provider body that merely begins with the four characters
http is accepted.  Here the first provider answers the five characters
httpx; the chain returns success with that value as the short url, although
it is not a syntactically valid absolute http(s) URL (it even lacks the
scheme separator). -/
theorem shortenUrl_accepts_invalid_url_cex :
    (shortenUrl "https://www.youtube.com/watch?v=abc"
      (shortenerChain.zip [.strBody "httpx", .failed, .failed])).success = true ∧
    specValidAbsoluteHttpUrl
      (shortenUrl "https://www.youtube.com/watch?v=abc"
        (shortenerChain.zip [.strBody "httpx", .failed, .failed])).shorturl = false := by
  decide

/-- C6 amended: the chain tries the providers in their fixed order and
returns the first attempt whose extracted candidate starts with the four
characters http and differs from the input (an attempt that errors, is
non-2xx, or yields a candidate failing that prefix-and-difference check is
skipped), and when every attempt is exhausted it returns success false with
the original input url unchanged and service none. -/
theorem shortenUrl_first_accepted_or_identity (longUrl : String)
    (attempts : List (String × ProviderOutcome)) :
    (shortenUrl longUrl attempts =
      match firstAcceptedCandidate longUrl attempts with
      | some (name, s) => ⟨true, s, longUrl, name⟩
      | none => ⟨false, longUrl, longUrl, "none"⟩) ∧
    ((shortenUrl longUrl attempts).success = true →
      strStartsWith (shortenUrl longUrl attempts).shorturl "http" = true ∧
      (shortenUrl longUrl attempts).shorturl ≠ longUrl) ∧
    ((shortenUrl longUrl attempts).success = false →
      (shortenUrl longUrl attempts).shorturl = longUrl ∧
      (shortenUrl longUrl attempts).service = "none") := by
  induction attempts with
  | nil => simp [shortenUrl, firstAcceptedCandidate]
  | cons a rest ih =>
      obtain ⟨name, out⟩ := a
      cases hext : extractShortUrl out with
      | none =>
          simpa [shortenUrl, firstAcceptedCandidate, List.findSome?_cons, hext] using ih
      | some s =>
          by_cases hacc : acceptsCandidate longUrl s = true
          · have hparts : strStartsWith s "http" = true ∧ s ≠ longUrl := by
              have := hacc
              simp only [acceptsCandidate, Bool.and_eq_true, bne_iff_ne, ne_eq] at this
              exact ⟨this.1, this.2⟩
            simp [shortenUrl, firstAcceptedCandidate, List.findSome?_cons, hext, hacc,
              Option.filter, hparts.1, hparts.2]
          · simpa [shortenUrl, firstAcceptedCandidate, List.findSome?_cons, hext, hacc,
              Option.filter] using ih

/-- Concrete instantiation of the C6 amended theorem: a healthy provider
body yields a short url with the http prefix that differs from the input. -/
theorem shortenUrl_first_accepted_or_identity_witness :
    strStartsWith
      (shortenUrl "https://u" [("TinyURL", .strBody "https://tinyurl.com/x")]).shorturl
      "http" = true ∧
    (shortenUrl "https://u" [("TinyURL", .strBody "https://tinyurl.com/x")]).shorturl ≠
      "https://u" :=
  (shortenUrl_first_accepted_or_identity "https://u"
    [("TinyURL", .strBody "https://tinyurl.com/x")]).2.1 (by decide)

/-- C7: loadMonitoringData of the source only parses the persisted file and
logs each entry (the loop body ends in the placeholder comment at line 70),
so whatever the persisted data holds, the registry after initializeServer
is empty: no MonitoringInstance is constructed, seeded, or started, and a
process restart resumes nothing.  In particular it is empty at the concrete
persisted snapshot of one live channel with known content ids. -/
theorem initializeServer_restores_no_instances :
    (∀ savedData : List (String × SavedChannelConfig),
      initializeServerRegistry savedData = []) ∧
    initializeServerRegistry
      [("@example",
        { channelHandle := "@example", webhookUrl := "https://w.example/hook",
          interval := 60000, contentTypes := ["live"],
          lastKnownStates :=
            { live := true, latestVideoId := some "v1", latestShortId := none } })] = [] := by
  have hall : ∀ savedData : List (String × SavedChannelConfig),
      initializeServerRegistry savedData = [] := by
    intro savedData
    unfold initializeServerRegistry loadMonitoringData
    induction savedData with
    | nil => rfl
    | cons p rest ih => simp [List.foldl]
  exact ⟨hall, hall _⟩

/-- Helper: a lookup for a key different from the filtered-out key is
unchanged by the filter step of cacheSet. -/
theorem lookup_filter_ne_key (k k' : String) (hne : k' ≠ k) :
    ∀ cache : List (String × CacheEntry),
      List.lookup k' (cache.filter (fun p => p.1 != k)) = List.lookup k' cache := by
  intro cache
  induction cache with
  | nil => rfl
  | cons p rest ih =>
      obtain ⟨pk, pv⟩ := p
      by_cases hp : pk = k
      · subst hp
        have hk : (k' == pk) = false := by
          simpa [beq_iff_eq] using hne
        simp [List.filter, List.lookup, hk, ih]
      · have hpk : (pk != k) = true := by
          simpa [bne_iff_ne] using hp
        by_cases hk : k' = pk
        · subst hk
          simp [List.filter, hpk, List.lookup]
        · have hk2 : (k' == pk) = false := by
            simpa [beq_iff_eq] using hk
          simp [List.filter, hpk, List.lookup, hk2, ih]

/-- Helper: setting a cache key leaves the lookup of every other key
unchanged. -/
theorem lookup_cacheSet_ne (cache : List (String × CacheEntry)) (k k' : String)
    (v : CacheEntry) (hne : k' ≠ k) :
    List.lookup k' (cacheSet cache k v) = List.lookup k' cache := by
  unfold cacheSet
  have hk : (k' == k) = false := by simpa [beq_iff_eq] using hne
  simp [List.lookup, hk, lookup_filter_ne_key k k' hne cache]

/-- Helper: the cache key the read path consults is never the bare channel
handle, since it appends an underscore and the content type. -/
theorem liveLinkCacheKey_ne_handle (h t : String) : liveLinkCacheKey h t ≠ h := by
  intro he
  have hlen := congrArg String.length he
  rw [liveLinkCacheKey, String.length_append, String.length_append] at hlen
  have h1 : ("_" : String).length = 1 := rfl
  omega

/-- C8 counterexample: a monitoring instance for the channel completing its
stream started pipeline writes the cache under the bare handle, so the
entry GET /api/live-link consults for that channel and content type stays
absent while the bare handle entry holds the update.  The claim states the
read path entry is updated; here it is not. -/
theorem liveLink_cache_not_updated_by_monitoring_cex :
    List.lookup (liveLinkCacheKey "@example" "live")
      (liveStartedCacheUpdate []
        { mkMonitoringInstance "@example" (some "https://w.example/hook") 60000 ["live"] with
            isMonitoring := true }
        "https://tinyurl.com/x") = none ∧
    List.lookup "@example"
      (liveStartedCacheUpdate []
        { mkMonitoringInstance "@example" (some "https://w.example/hook") 60000 ["live"] with
            isMonitoring := true }
        "https://tinyurl.com/x") =
      some { isLive := true, shorturl := some "https://tinyurl.com/x" } := by
  decide

/-- C8 amended: when the monitoring pipeline detects a live start and
completes, it writes the response cache only under the bare channel handle
key (the entry GET /api/monitoring/status surfaces), and that key differs
from the handle underscore type key GET /api/live-link consults, so the
read path entry for that channel and content type is left exactly as it
was. -/
theorem monitoring_cache_write_misses_read_path_key
    (self : MonitoringInstance) (ls : LiveStatus)
    (attempts : List (String × ProviderOutcome))
    (hstart : ls.isLive = true) (hlast : self.lastKnownStates.live = false)
    (hurl : optTruthy ls.liveUrl = true) :
    (handleLiveStatusChange self ls attempts).cacheWrites = [self.channelHandle] ∧
    ∀ (t : String) (cache : List (String × CacheEntry)) (v : CacheEntry),
      List.lookup (liveLinkCacheKey self.channelHandle t)
        (cacheSet cache self.channelHandle v) =
      List.lookup (liveLinkCacheKey self.channelHandle t) cache := by
  constructor
  · simp [handleLiveStatusChange, hstart, hlast, hurl]
  · intro t cache v
    exact lookup_cacheSet_ne cache self.channelHandle _ v
      (liveLinkCacheKey_ne_handle self.channelHandle t)

/-- Concrete instantiation of the C8 amended theorem: the pipeline of a
fresh instance observing a live start writes only the bare handle key. -/
theorem monitoring_cache_write_misses_read_path_key_witness :
    (handleLiveStatusChange
      (mkMonitoringInstance "@example" (some "https://w.example/hook") 60000 ["live"])
      (apiLiveResult "abc" "Title") []).cacheWrites = ["@example"] :=
  (monitoring_cache_write_misses_read_path_key
    (mkMonitoringInstance "@example" (some "https://w.example/hook") 60000 ["live"])
    (apiLiveResult "abc" "Title") [] rfl rfl (by decide)).1

end LinkBite
